import Mathlib

/-!
Verification of the Maico WS Modbus client core
(custom_components/maicows/maico_ws): value codec, control/write
operations, status aggregation and transport-mode selection, shallowly
embedded from the Python source.

Raw register words are modelled as Nat (pymodbus returns unsigned 16-bit
words), Python floats as exact rationals, Python ints as Int where
negative inputs are possible, and fallible paths as Option / Except.
-/

namespace MaicoWS

/-! ## Register constants (maico_ws/registers.py) -/

namespace MaicoWSRegisters

def ROOM_TEMP_SELECTION : Nat := 109
def FILTER_DEVICE_MONTHS : Nat := 150
def FILTER_OUTDOOR_MONTHS : Nat := 151
def FILTER_ROOM_MONTHS : Nat := 152
def FILTER_CHANGE_DEVICE : Nat := 157
def FILTER_CHANGE_OUTDOOR : Nat := 158
def FILTER_CHANGE_ROOM : Nat := 159
def SUPPLY_TEMP_MIN_COOL : Nat := 301
def ROOM_TEMP_MAX : Nat := 302
def ERROR_RESET : Nat := 405
def OPERATION_MODE : Nat := 550
def BOOST_VENTILATION : Nat := 551
def SEASON : Nat := 552
def TARGET_ROOM_TEMP : Nat := 553
def VENTILATION_LEVEL : Nat := 554
def ROOM_TEMP_EXT : Nat := 701
def ROOM_TEMP_BUS : Nat := 707
def HUMIDITY_BUS : Nat := 763
def AIR_QUALITY_BUS : Nat := 764
def MAX_INT_16BIT : Nat := 32767
def VENTILATION_LEVEL_MIN : Int := 0
def VENTILATION_LEVEL_MAX : Int := 4

end MaicoWSRegisters

/-! ## Value codec (client.py helpers and status.py local helpers) -/

/-- `MaicoWSClient.to_signed`: unsigned 16-bit word to signed value. -/
def to_signed (value : Nat) : Int :=
  if value > MaicoWSRegisters.MAX_INT_16BIT then (value : Int) - 65536
  else (value : Int)

/-- `to_temp` helper: `to_signed(raw) / 10.0`, modelled exactly in ℚ. -/
def to_temp (raw : Nat) : ℚ := (to_signed raw : ℚ) / 10

/-- `combine(hi, lo) = (hi << 16) | lo` on Python unbounded ints. -/
def combine (hi lo : Nat) : Nat := (hi <<< 16) ||| lo

/-- Python `int(q)` on a float value: truncation toward zero. -/
def pyInt (q : ℚ) : Int := if q < 0 then -Int.floor (-q) else Int.floor q

/-- Python `round(q)` on a float value: round half to even. -/
def pyRound (q : ℚ) : Int :=
  let fl := Int.floor q
  if q - (fl : ℚ) < 1 / 2 then fl
  else if 1 / 2 < q - (fl : ℚ) then fl + 1
  else if fl % 2 = 0 then fl else fl + 1

/-! ## Control operations (maico_ws/controls.py)

Each control method validates its input, then issues at most one
`write_register(register, value)` call. The transport outcome of a
dispatched write is abstracted as a function `wt : register → value →
Bool` (the return of `MaicoWSClient.write_register`); the writes the
transport sees are recorded explicitly in order. -/

def OPERATION_MODE_MAX : Int := 5
def TARGET_TEMP_MIN : ℚ := 18
def TARGET_TEMP_MAX : ℚ := 25
def ROOM_TEMP_SEL_MAX : Int := 3
def HUMIDITY_MAX : Int := 100
def AIR_QUALITY_MAX : Int := 5000
def FILTER_DEVICE_MIN : Int := 3
def FILTER_DEVICE_MAX : Int := 12
def FILTER_OUTDOOR_MIN : Int := 3
def FILTER_OUTDOOR_MAX : Int := 18
def FILTER_ROOM_MIN : Int := 1
def FILTER_ROOM_MAX : Int := 6

/-- Result of one control method: the boolean it returns and the list of
`(register, value)` writes it dispatched to `write_register`. -/
structure WriteOutcome where
  ok : Bool
  writes : List (Nat × Int)
deriving DecidableEq

abbrev WriteFn := Nat → Int → Bool

/-- `ControlsMixin.set_operation_mode` (register 550, domain 0-5). -/
def set_operation_mode (wt : WriteFn) (mode : Int) : WriteOutcome :=
  if mode < 0 ∨ mode > OPERATION_MODE_MAX then ⟨false, []⟩
  else ⟨wt MaicoWSRegisters.OPERATION_MODE mode,
        [(MaicoWSRegisters.OPERATION_MODE, mode)]⟩

/-- `ControlsMixin.set_ventilation_level` (register 554, domain 0-4). -/
def set_ventilation_level (wt : WriteFn) (level : Int) : WriteOutcome :=
  if level < MaicoWSRegisters.VENTILATION_LEVEL_MIN
      ∨ level > MaicoWSRegisters.VENTILATION_LEVEL_MAX then ⟨false, []⟩
  else ⟨wt MaicoWSRegisters.VENTILATION_LEVEL level,
        [(MaicoWSRegisters.VENTILATION_LEVEL, level)]⟩

/-- `ControlsMixin.set_target_room_temperature` (register 553):
validates 18.0-25.0, then writes `int(round(temp * 2) / 2 * 10)`. -/
def set_target_room_temperature (wt : WriteFn) (temp : ℚ) : WriteOutcome :=
  if temp < TARGET_TEMP_MIN ∨ temp > TARGET_TEMP_MAX then ⟨false, []⟩
  else
    let raw_value : Int := pyInt ((pyRound (temp * 2) : ℚ) / 2 * 10)
    ⟨wt MaicoWSRegisters.TARGET_ROOM_TEMP raw_value,
     [(MaicoWSRegisters.TARGET_ROOM_TEMP, raw_value)]⟩

/-- `ControlsMixin.write_supply_temp_min_cool` (register 301): the source
performs no validation and writes `int(temp)` directly. -/
def write_supply_temp_min_cool (wt : WriteFn) (temp : ℚ) : WriteOutcome :=
  let raw_value : Int := pyInt temp
  ⟨wt MaicoWSRegisters.SUPPLY_TEMP_MIN_COOL raw_value,
   [(MaicoWSRegisters.SUPPLY_TEMP_MIN_COOL, raw_value)]⟩

/-- `ControlsMixin.write_room_temp_max` (register 302): no validation,
writes `int(temp * 10)`. -/
def write_room_temp_max (wt : WriteFn) (temp : ℚ) : WriteOutcome :=
  let raw_value : Int := pyInt (temp * 10)
  ⟨wt MaicoWSRegisters.ROOM_TEMP_MAX raw_value,
   [(MaicoWSRegisters.ROOM_TEMP_MAX, raw_value)]⟩

/-- `ControlsMixin.set_season` (register 552, domain {0,1}). -/
def set_season (wt : WriteFn) (season : Int) : WriteOutcome :=
  if season ≠ 0 ∧ season ≠ 1 then ⟨false, []⟩
  else ⟨wt MaicoWSRegisters.SEASON season, [(MaicoWSRegisters.SEASON, season)]⟩

/-- `ControlsMixin.set_boost_ventilation` (register 551): no validation. -/
def set_boost_ventilation (wt : WriteFn) (active : Bool) : WriteOutcome :=
  let value : Int := if active then 1 else 0
  ⟨wt MaicoWSRegisters.BOOST_VENTILATION value,
   [(MaicoWSRegisters.BOOST_VENTILATION, value)]⟩

/-- `ControlsMixin.set_room_temp_selection` (register 109, domain 0-3). -/
def set_room_temp_selection (wt : WriteFn) (selection : Int) : WriteOutcome :=
  if selection < 0 ∨ selection > ROOM_TEMP_SEL_MAX then ⟨false, []⟩
  else ⟨wt MaicoWSRegisters.ROOM_TEMP_SELECTION selection,
        [(MaicoWSRegisters.ROOM_TEMP_SELECTION, selection)]⟩

/-- `ControlsMixin.write_bus_humidity` (register 763, domain 0-100). -/
def write_bus_humidity (wt : WriteFn) (humidity : Int) : WriteOutcome :=
  if humidity < 0 ∨ humidity > HUMIDITY_MAX then ⟨false, []⟩
  else ⟨wt MaicoWSRegisters.HUMIDITY_BUS humidity,
        [(MaicoWSRegisters.HUMIDITY_BUS, humidity)]⟩

/-- `ControlsMixin.write_bus_air_quality` (register 764, domain 0-5000). -/
def write_bus_air_quality (wt : WriteFn) (ppm : Int) : WriteOutcome :=
  if ppm < 0 ∨ ppm > AIR_QUALITY_MAX then ⟨false, []⟩
  else ⟨wt MaicoWSRegisters.AIR_QUALITY_BUS ppm,
        [(MaicoWSRegisters.AIR_QUALITY_BUS, ppm)]⟩

/-- `ControlsMixin.set_filter_device_months` (register 150, domain 3-12). -/
def set_filter_device_months (wt : WriteFn) (months : Int) : WriteOutcome :=
  if months < FILTER_DEVICE_MIN ∨ months > FILTER_DEVICE_MAX then ⟨false, []⟩
  else ⟨wt MaicoWSRegisters.FILTER_DEVICE_MONTHS months,
        [(MaicoWSRegisters.FILTER_DEVICE_MONTHS, months)]⟩

/-- `ControlsMixin.set_filter_outdoor_months` (register 151, domain 3-18). -/
def set_filter_outdoor_months (wt : WriteFn) (months : Int) : WriteOutcome :=
  if months < FILTER_OUTDOOR_MIN ∨ months > FILTER_OUTDOOR_MAX then ⟨false, []⟩
  else ⟨wt MaicoWSRegisters.FILTER_OUTDOOR_MONTHS months,
        [(MaicoWSRegisters.FILTER_OUTDOOR_MONTHS, months)]⟩

/-- `ControlsMixin.set_filter_room_months` (register 152, domain 1-6). -/
def set_filter_room_months (wt : WriteFn) (months : Int) : WriteOutcome :=
  if months < FILTER_ROOM_MIN ∨ months > FILTER_ROOM_MAX then ⟨false, []⟩
  else ⟨wt MaicoWSRegisters.FILTER_ROOM_MONTHS months,
        [(MaicoWSRegisters.FILTER_ROOM_MONTHS, months)]⟩

/-- `ControlsMixin.write_external_room_temp` (register 701): no validation. -/
def write_external_room_temp (wt : WriteFn) (temp : ℚ) : WriteOutcome :=
  let raw_value : Int := pyInt (temp * 10)
  ⟨wt MaicoWSRegisters.ROOM_TEMP_EXT raw_value,
   [(MaicoWSRegisters.ROOM_TEMP_EXT, raw_value)]⟩

/-! ## Status aggregation (maico_ws/status.py)

The snapshot dict built by `StatusMixin._process_status_results` assigns
each key at most once, so it is modelled as a record of `Option` fields,
`none` meaning the key is absent from the dict. A processing step that
would raise in Python (index error on a short block, destructuring error
on the fault block) is modelled by the whole processing returning
`none`. -/

/-- Nested `filter_status` sub-dict of the ventilation block. -/
structure FilterStatus where
  filter_device_days : Nat
  filter_outdoor_days : Nat
  filter_room_days : Nat
deriving DecidableEq

/-- Snapshot dict of `_process_status_results`; fields in assignment
order, `none` = key absent. -/
structure Status where
  room_temp_adjust : Option ℚ := none
  supply_temp_min_cool : Option Nat := none
  room_temp_max : Option ℚ := none
  current_ventilation_level : Option Nat := none
  supply_fan_speed : Option Nat := none
  extract_fan_speed : Option Nat := none
  current_supply_volume_flow : Option Nat := none
  current_extract_volume_flow : Option Nat := none
  filter_status : Option FilterStatus := none
  room_temperature : Option ℚ := none
  room_temperature_ext : Option ℚ := none
  inlet_air_temperature : Option ℚ := none
  supply_air_temperature : Option ℚ := none
  extract_air_temperature : Option ℚ := none
  exhaust_air_temperature : Option ℚ := none
  room_temperature_bus : Option ℚ := none
  extract_air_humidity : Option Nat := none
  humidity_sensor_1 : Option Nat := none
  humidity_sensor_2 : Option Nat := none
  humidity_sensor_3 : Option Nat := none
  humidity_sensor_4 : Option Nat := none
  co2_sensor_1 : Option ℚ := none
  co2_sensor_2 : Option ℚ := none
  co2_sensor_3 : Option ℚ := none
  co2_sensor_4 : Option ℚ := none
  voc_sensor_1 : Option ℚ := none
  voc_sensor_2 : Option ℚ := none
  voc_sensor_3 : Option ℚ := none
  voc_sensor_4 : Option ℚ := none
  humidity_bus : Option Nat := none
  air_quality_bus : Option Nat := none
  operation_mode : Option String := none
  boost_ventilation : Option Bool := none
  season : Option String := none
  target_temperature : Option ℚ := none
  ventilation_level : Option Nat := none
  supply_fan_state : Option Bool := none
  extract_fan_state : Option Bool := none
  bypass_status : Option Bool := none
  ptc_heater : Option Bool := none
  switch_contact : Option Bool := none
  post_heater_relay : Option Bool := none
  brine_pump : Option Nat := none
  three_way_damper : Option Nat := none
  zone_damper : Option Nat := none
  fault_status : Option String := none
  info_messages : Option String := none
  filter_device_months : Option Nat := none
  filter_outdoor_months : Option Nat := none
  filter_room_months : Option Nat := none
  filter_duration : Option Nat := none
  volume_flow_reduced : Option Nat := none
  volume_flow_normal : Option Nat := none
  volume_flow_intensive : Option Nat := none
  hours_humidity : Option Nat := none
  hours_reduced : Option Nat := none
  hours_nominal : Option Nat := none
  hours_intensive : Option Nat := none
  hours_total : Option Nat := none
  room_temp_selection : Option String := none
  power_state : Option Bool := none
deriving DecidableEq

/-- The `mode_map` dict literal of the operation-mode block. -/
def mode_map (w : Nat) : Option String :=
  match w with
  | 0 => some "off"
  | 1 => some "manual"
  | 2 => some "auto_time"
  | 3 => some "auto_sensor"
  | 4 => some "eco_supply"
  | 5 => some "eco_extract"
  | _ => none

/-- The `season_map` dict literal. -/
def season_map (w : Nat) : Option String :=
  match w with
  | 0 => some "winter"
  | 1 => some "summer"
  | _ => none

/-- The `room_sel_map` dict literal. -/
def room_sel_map (w : Nat) : Option String :=
  match w with
  | 0 => some "comfort_bde"
  | 1 => some "external"
  | 2 => some "internal"
  | 3 => some "bus"
  | _ => none

/-- `table.get(w, f"unknown_{w}")`: dict lookup with the unknown-code
fallback string used for every enum decode in the aggregator. -/
def decode (table : Nat → Option String) (w : Nat) : String :=
  (table w).getD ("unknown_" ++ toString w)

/-- Settings block 300-302 (`if settings_block:` branch). -/
def procSettings (b : Option (List Nat)) (st : Status) : Option Status :=
  match b with
  | none => some st
  | some l =>
    if l.isEmpty then some st
    else do
      let r0 ← l.get? 0
      let r1 ← l.get? 1
      let r2 ← l.get? 2
      some { st with
        room_temp_adjust := some (to_temp r0),
        supply_temp_min_cool := some r1,
        room_temp_max := some (to_temp r2) }

/-- Ventilation/fan block 650-657 (`if vent_block:` branch). -/
def procVent (b : Option (List Nat)) (st : Status) : Option Status :=
  match b with
  | none => some st
  | some l =>
    if l.isEmpty then some st
    else do
      let r0 ← l.get? 0
      let r1 ← l.get? 1
      let r2 ← l.get? 2
      let r3 ← l.get? 3
      let r4 ← l.get? 4
      let r5 ← l.get? 5
      let r6 ← l.get? 6
      let r7 ← l.get? 7
      some { st with
        current_ventilation_level := some r0,
        supply_fan_speed := some r1,
        extract_fan_speed := some r2,
        current_supply_volume_flow := some r3,
        current_extract_volume_flow := some r4,
        filter_status := some ⟨r5, r6, r7⟩ }

/-- Temperatures block 700-707; index 2 (register 702) is skipped. -/
def procTemp (b : Option (List Nat)) (st : Status) : Option Status :=
  match b with
  | none => some st
  | some l =>
    if l.isEmpty then some st
    else do
      let r0 ← l.get? 0
      let r1 ← l.get? 1
      let r3 ← l.get? 3
      let r4 ← l.get? 4
      let r5 ← l.get? 5
      let r6 ← l.get? 6
      let r7 ← l.get? 7
      some { st with
        room_temperature := some (to_temp r0),
        room_temperature_ext := some (to_temp r1),
        inlet_air_temperature := some (to_temp r3),
        supply_air_temperature := some (to_temp r4),
        extract_air_temperature := some (to_temp r5),
        exhaust_air_temperature := some (to_temp r6),
        room_temperature_bus := some (to_temp r7) }

/-- Humidity/CO2/VOC block 750-764: humidity fields raw, CO2 and VOC
divided by 10, sub-groups guarded by the observed list length. -/
def procHum (b : Option (List Nat)) (st : Status) : Option Status :=
  match b with
  | none => some st
  | some l =>
    if l.isEmpty then some st
    else do
      let r0 ← l.get? 0
      let st := { st with extract_air_humidity := some r0 }
      let st ←
        if 4 < l.length then do
          let r1 ← l.get? 1
          let r2 ← l.get? 2
          let r3 ← l.get? 3
          let r4 ← l.get? 4
          some { st with
            humidity_sensor_1 := some r1,
            humidity_sensor_2 := some r2,
            humidity_sensor_3 := some r3,
            humidity_sensor_4 := some r4 }
        else some st
      let st ←
        if 8 < l.length then do
          let r5 ← l.get? 5
          let r6 ← l.get? 6
          let r7 ← l.get? 7
          let r8 ← l.get? 8
          some { st with
            co2_sensor_1 := some ((r5 : ℚ) / 10),
            co2_sensor_2 := some ((r6 : ℚ) / 10),
            co2_sensor_3 := some ((r7 : ℚ) / 10),
            co2_sensor_4 := some ((r8 : ℚ) / 10) }
        else some st
      let st ←
        if 12 < l.length then do
          let r9 ← l.get? 9
          let r10 ← l.get? 10
          let r11 ← l.get? 11
          let r12 ← l.get? 12
          some { st with
            voc_sensor_1 := some ((r9 : ℚ) / 10),
            voc_sensor_2 := some ((r10 : ℚ) / 10),
            voc_sensor_3 := some ((r11 : ℚ) / 10),
            voc_sensor_4 := some ((r12 : ℚ) / 10) }
        else some st
      let st ←
        if 14 < l.length then do
          let r13 ← l.get? 13
          let r14 ← l.get? 14
          some { st with
            humidity_bus := some r13,
            air_quality_bus := some r14 }
        else some st
      some st

/-- Operation-mode block 550-554: enum decodes with fallback, boolean
boost flag, tenths-signed target temperature, raw level. -/
def procOp (b : Option (List Nat)) (st : Status) : Option Status :=
  match b with
  | none => some st
  | some l =>
    if l.isEmpty then some st
    else do
      let r0 ← l.get? 0
      let r1 ← l.get? 1
      let r2 ← l.get? 2
      let r3 ← l.get? 3
      let r4 ← l.get? 4
      some { st with
        operation_mode := some (decode mode_map r0),
        boost_ventilation := some (r1 ≠ 0),
        season := some (decode season_map r2),
        target_temperature := some (to_temp r3),
        ventilation_level := some r4 }

/-- Switch-states block 800-808: four mandatory flags, extended fields
guarded by the observed list length. -/
def procSwitch (b : Option (List Nat)) (st : Status) : Option Status :=
  match b with
  | none => some st
  | some l =>
    if l.isEmpty then some st
    else do
      let r0 ← l.get? 0
      let r1 ← l.get? 1
      let r2 ← l.get? 2
      let r3 ← l.get? 3
      let st := { st with
        supply_fan_state := some (r0 ≠ 0),
        extract_fan_state := some (r1 ≠ 0),
        bypass_status := some (r2 ≠ 0),
        ptc_heater := some (r3 ≠ 0) }
      let st ←
        if 4 < l.length then do
          let r4 ← l.get? 4
          some { st with switch_contact := some (r4 ≠ 0) }
        else some st
      let st ←
        if 5 < l.length then do
          let r5 ← l.get? 5
          some { st with post_heater_relay := some (r5 ≠ 0) }
        else some st
      let st ←
        if 6 < l.length then do
          let r6 ← l.get? 6
          some { st with brine_pump := some r6 }
        else some st
      let st ←
        if 7 < l.length then do
          let r7 ← l.get? 7
          some { st with three_way_damper := some r7 }
        else some st
      let st ←
        if 8 < l.length then do
          let r8 ← l.get? 8
          some { st with zone_damper := some r8 }
        else some st
      some st

/-- Faults/info block 401-404: tuple destructuring into exactly four
words (any other non-empty length raises, modelled as `none`). -/
def procFault (b : Option (List Nat)) (st : Status) : Option Status :=
  match b with
  | none => some st
  | some [] => some st
  | some [err_hi, err_lo, info_hi, info_lo] =>
    some { st with
      fault_status := some
        (if err_hi = 0 ∧ err_lo = 0 then "no_fault"
         else "error_hi_" ++ toString err_hi ++ "_lo_" ++ toString err_lo),
      info_messages := some
        (if info_hi = 0 ∧ info_lo = 0 then "no_info"
         else "info_hi_" ++ toString info_hi ++ "_lo_" ++ toString info_lo) }
  | some _ => none

/-- Filter/flow settings block 150-159. -/
def procFilterFlow (b : Option (List Nat)) (st : Status) : Option Status :=
  match b with
  | none => some st
  | some l =>
    if l.isEmpty then some st
    else do
      let r0 ← l.get? 0
      let r1 ← l.get? 1
      let r2 ← l.get? 2
      let r3 ← l.get? 3
      let r4 ← l.get? 4
      let r5 ← l.get? 5
      let r6 ← l.get? 6
      some { st with
        filter_device_months := some r0,
        filter_outdoor_months := some r1,
        filter_room_months := some r2,
        filter_duration := some r3,
        volume_flow_reduced := some r4,
        volume_flow_normal := some r5,
        volume_flow_intensive := some r6 }

/-- Operating-hours block 850-859: five 32-bit hi/lo combined counters. -/
def procHours (b : Option (List Nat)) (st : Status) : Option Status :=
  match b with
  | none => some st
  | some l =>
    if l.isEmpty then some st
    else do
      let r0 ← l.get? 0
      let r1 ← l.get? 1
      let r2 ← l.get? 2
      let r3 ← l.get? 3
      let r4 ← l.get? 4
      let r5 ← l.get? 5
      let r6 ← l.get? 6
      let r7 ← l.get? 7
      let r8 ← l.get? 8
      let r9 ← l.get? 9
      some { st with
        hours_humidity := some (combine r0 r1),
        hours_reduced := some (combine r2 r3),
        hours_nominal := some (combine r4 r5),
        hours_intensive := some (combine r6 r7),
        hours_total := some (combine r8 r9) }

/-- Room-temp-selection register 109 (`if room_temp_sel is not None:`). -/
def procRoomSel (b : Option Nat) (st : Status) : Option Status :=
  match b with
  | none => some st
  | some w => some { st with room_temp_selection := some (decode room_sel_map w) }

/-- The derived `power_state` value: `status.get("operation_mode") != "off"`.
Any absent or non-"off" operation mode compares unequal to "off". -/
def power_from_opt (o : Option String) : Bool :=
  match o with
  | some s => s ≠ "off"
  | none => true

/-- `StatusMixin._process_status_results`: decode the ten block results
in order, then append the derived `power_state` key. A Python exception
(short mandatory block, bad fault-block arity) is modelled as `none`. -/
def process_status_results
    (settings_block vent_block temp_block hum_block op_block switch_block
      fault_block filter_flow_block hours_block : Option (List Nat))
    (room_temp_sel : Option Nat) : Option Status :=
  (procSettings settings_block {}).bind fun st =>
  (procVent vent_block st).bind fun st =>
  (procTemp temp_block st).bind fun st =>
  (procHum hum_block st).bind fun st =>
  (procOp op_block st).bind fun st =>
  (procSwitch switch_block st).bind fun st =>
  (procFault fault_block st).bind fun st =>
  (procFilterFlow filter_flow_block st).bind fun st =>
  (procHours hours_block st).bind fun st =>
  (procRoomSel room_temp_sel st).bind fun st =>
  some { st with power_state := some (power_from_opt st.operation_mode) }

/-! ## Transport client reads (maico_ws/client.py) and the composed
`MaicoWS.get_all_status` entry point.

One pymodbus `read_holding_registers` exchange either raises, returns a
response with the error flag set, or returns a register list. The
`MaicoWSClient` read methods catch every exception and turn every
failure into `None`; hence, in the composed `MaicoWS` class, the block
reads made by `get_all_status` never raise and the `except` branch of
`get_all_status` is unreachable. An exception escaping
`_process_status_results` (called outside the `try`) would propagate,
modelled as `Except.error`. -/

/-- Outcome of one underlying pymodbus read exchange. -/
inductive ModbusResp where
  | raised
  | err
  | ok (regs : List Nat)

/-- The underlying pymodbus client: one read primitive
(address, count). -/
structure ModbusIO where
  read : Nat → Nat → ModbusResp

/-- `MaicoWSClient.read_holding_registers`: every transport failure
(exception or error response) becomes `None`. -/
def client_read_registers (connected : Bool) (io : ModbusIO)
    (register count : Nat) : Option (List Nat) :=
  if !connected then none
  else
    match io.read register count with
    | .raised => none
    | .err => none
    | .ok regs => some regs

/-- `MaicoWSClient.read_holding_register`: single-register read via a
count-1 exchange; `response.registers[0]` on an empty list raises and is
caught, yielding `None`. -/
def client_read_register (connected : Bool) (io : ModbusIO)
    (register : Nat) : Option Nat :=
  if !connected then none
  else
    match io.read register 1 with
    | .raised => none
    | .err => none
    | .ok regs => regs.get? 0

/-- `StatusMixin.get_all_status` as composed in `MaicoWS` (the client
read implementations win the MRO): not connected returns `None`; the ten
block reads never raise; a processing exception propagates
(`Except.error`). -/
def get_all_status (connected : Bool) (io : ModbusIO) :
    Except Unit (Option Status) :=
  if !connected then .ok none
  else
    match process_status_results
      (client_read_registers connected io 300 3)
      (client_read_registers connected io 650 8)
      (client_read_registers connected io 700 8)
      (client_read_registers connected io 750 15)
      (client_read_registers connected io 550 5)
      (client_read_registers connected io 800 9)
      (client_read_registers connected io 401 4)
      (client_read_registers connected io 150 10)
      (client_read_registers connected io 850 10)
      (client_read_register connected io 109) with
    | none => .error ()
    | some st => .ok (some st)

/-! ## Construction and transport-mode selection (client.py) -/

/-- State set up by `MaicoWSClient.__init__`: stores the parameters
unchanged and derives `_is_rtu = serial_port is not None`; no
validation is performed. -/
structure ClientState where
  host : Option String
  port : Nat
  serial_port : Option String
  baudrate : Nat
  slave_id : Nat
  connected : Bool
  is_rtu : Bool
deriving DecidableEq

/-- `MaicoWSClient.__init__`. -/
def initClient (host : Option String) (port : Nat)
    (serial_port : Option String) (baudrate : Nat) (slave_id : Nat) :
    ClientState :=
  { host := host, port := port, serial_port := serial_port,
    baudrate := baudrate, slave_id := slave_id, connected := false,
    is_rtu := serial_port.isSome }

/-- The transport object `MaicoWSClient.connect` constructs before any
connection attempt. -/
inductive TransportSel where
  | rtu (serial_port : Option String) (baudrate : Nat)
  | tcp (host : Option String) (port : Nat)
deriving DecidableEq

/-- The transport-selection step of `MaicoWSClient.connect`: branches on
`_is_rtu` only; no configuration is ever rejected. -/
def connectTransport (c : ClientState) : TransportSel :=
  if c.is_rtu then .rtu c.serial_port c.baudrate else .tcp c.host c.port

/-! ## Helper lemmas -/

/-- A transport-level failure (raised exception or error response) of one
block read surfaces as `None` from the client read method. -/
theorem client_read_registers_eq_none (connected : Bool) (io : ModbusIO)
    (r c : Nat) (h : io.read r c = .raised ∨ io.read r c = .err) :
    client_read_registers connected io r c = none := by
  rcases h with h | h <;> cases connected <;> simp [client_read_registers, h]

/-- Same for the single-register read. -/
theorem client_read_register_eq_none (connected : Bool) (io : ModbusIO)
    (r : Nat) (h : io.read r 1 = .raised ∨ io.read r 1 = .err) :
    client_read_register connected io r = none := by
  rcases h with h | h <;> cases connected <;> simp [client_read_register, h]

/-! ## Claim theorems -/

/-- C1, counterexample: with the composed client, a device on which every
one of the ten block reads fails at the transport level (every pymodbus
exchange raises) makes `get_all_status` return a present snapshot whose
only populated key is the derived `power_state = True`; it does not
return `None` and raises no aggregation failure. -/
theorem C1_all_reads_fail_cex :
    get_all_status true ⟨fun _ _ => .raised⟩
      = .ok (some { power_state := some true }) ∧
    (Except.ok (some ({ power_state := some true } : Status)) :
      Except Unit (Option Status)) ≠ .ok none := by
  exact ⟨rfl, by simp⟩

/-- C1, amended: if every block read fails at the transport level (each
underlying exchange raises or returns an error response), the client read
layer converts each failure to `None` and `get_all_status` returns a
snapshot containing only the derived `power_state = True` key, with every
device-derived field absent; it neither raises nor returns `None`. -/
theorem C1_all_reads_fail_amended (io : ModbusIO)
    (h : ∀ r c, io.read r c = .raised ∨ io.read r c = .err) :
    get_all_status true io = .ok (some { power_state := some true }) := by
  rw [get_all_status]
  rw [client_read_registers_eq_none true io 300 3 (h 300 3),
    client_read_registers_eq_none true io 650 8 (h 650 8),
    client_read_registers_eq_none true io 700 8 (h 700 8),
    client_read_registers_eq_none true io 750 15 (h 750 15),
    client_read_registers_eq_none true io 550 5 (h 550 5),
    client_read_registers_eq_none true io 800 9 (h 800 9),
    client_read_registers_eq_none true io 401 4 (h 401 4),
    client_read_registers_eq_none true io 150 10 (h 150 10),
    client_read_registers_eq_none true io 850 10 (h 850 10),
    client_read_register_eq_none true io 109 (h 109 1)]
  rfl

/-- C1, witness: the amended theorem applied to a device whose reads all
raise. -/
theorem C1_all_reads_fail_witness :
    get_all_status true ⟨fun _ _ => ModbusResp.raised⟩
      = .ok (some { power_state := some true }) :=
  C1_all_reads_fail_amended ⟨fun _ _ => ModbusResp.raised⟩
    (fun _ _ => Or.inl rfl)

/-- C2, counterexample: `set_target_room_temperature(25.5)` does not
issue a write of raw value 255; 25.5 exceeds the 25.0 maximum, so the
call fails validation and issues zero writes. -/
theorem C2_target_temp_cex :
    set_target_room_temperature (fun _ _ => true) (51 / 2) = ⟨false, []⟩ ∧
    (set_target_room_temperature (fun _ _ => true) (51 / 2)).writes = [] := by
  have h : set_target_room_temperature (fun _ _ => true) (51 / 2)
      = ⟨false, []⟩ := by
    unfold set_target_room_temperature
    rw [if_pos (by norm_num [TARGET_TEMP_MIN, TARGET_TEMP_MAX])]
  exact ⟨h, by rw [h]⟩

/-- C2, amended: `set_target_room_temperature(18.0)` issues exactly one
write of raw value 180 to register 553; `set_target_room_temperature(25.5)`
is rejected (above the 25.0 maximum) with zero writes; 17.9 is rejected
(below the 18.0 minimum) with zero writes. -/
theorem C2_target_temp_amended (wt : WriteFn) :
    set_target_room_temperature wt 18 = ⟨wt 553 180, [(553, 180)]⟩ ∧
    set_target_room_temperature wt (51 / 2) = ⟨false, []⟩ ∧
    set_target_room_temperature wt (179 / 10) = ⟨false, []⟩ := by
  refine ⟨?_, ?_, ?_⟩
  · unfold set_target_room_temperature
    rw [if_neg (by norm_num [TARGET_TEMP_MIN, TARGET_TEMP_MAX])]
    norm_num [pyInt, pyRound, MaicoWSRegisters.TARGET_ROOM_TEMP]
  · unfold set_target_room_temperature
    rw [if_pos (by norm_num [TARGET_TEMP_MIN, TARGET_TEMP_MAX])]
  · unfold set_target_room_temperature
    rw [if_pos (by norm_num [TARGET_TEMP_MIN, TARGET_TEMP_MAX])]

/-- C3, counterexample: constructing the client with both `host` and
`serial_port` set is not rejected; `connect` silently selects RTU
(ignoring the host), and with neither set it silently selects TCP with a
`None` host. -/
theorem C3_config_cex :
    connectTransport
        (initClient (some "192.168.1.2") 502 (some "/dev/ttyUSB0") 9600 1)
      = .rtu (some "/dev/ttyUSB0") 9600 ∧
    connectTransport (initClient none 502 none 9600 1) = .tcp none 502 :=
  ⟨rfl, rfl⟩

/-- C3, amended: the client performs no configuration validation:
`__init__` accepts every combination of `host` and `serial_port` and sets
`_is_rtu = serial_port is not None`; `connect` then constructs an RTU
transport whenever `serial_port` was supplied (even if `host` was also
supplied) and a TCP transport otherwise (even if `host` is unset). -/
theorem C3_config_amended (host : Option String) (port : Nat)
    (sp : Option String) (baud slave : Nat) :
    (initClient host port sp baud slave).is_rtu = sp.isSome ∧
    connectTransport (initClient host port sp baud slave)
      = (match sp with
         | some s => .rtu (some s) baud
         | none => .tcp host port) := by
  cases sp <;> simp [initClient, connectTransport]

/-- C4, counterexample: `write_supply_temp_min_cool(50)`, an input far
outside the declared 8-29 domain, is not rejected: it dispatches exactly
one write of raw value 50 to register 301, so the transport does see an
out-of-range value. -/
theorem C4_validation_cex :
    write_supply_temp_min_cool (fun _ _ => true) 50 = ⟨true, [(301, 50)]⟩ := by
  unfold write_supply_temp_min_cool
  norm_num [pyInt, MaicoWSRegisters.SUPPLY_TEMP_MIN_COOL]

/-- C4, amended: control operations with a coded range check (e.g.
`set_ventilation_level` against 0-4) reject out-of-domain inputs with a
failure return and zero writes, but `write_supply_temp_min_cool` performs
no validation at all: for every input it dispatches one write of
`int(temp)` to register 301. -/
theorem C4_validation_amended (wt : WriteFn) (level : Int) (t : ℚ)
    (h : level < 0 ∨ 4 < level) :
    set_ventilation_level wt level = ⟨false, []⟩ ∧
    write_supply_temp_min_cool wt t
      = ⟨wt 301 (pyInt t), [(301, pyInt t)]⟩ := by
  constructor
  · simp only [set_ventilation_level, MaicoWSRegisters.VENTILATION_LEVEL_MIN,
      MaicoWSRegisters.VENTILATION_LEVEL_MAX]
    rw [if_pos h]
  · rfl

/-- C4, witness: the amended theorem at level 5 and temperature 50. -/
theorem C4_validation_witness :
    set_ventilation_level (fun _ _ => true) 5 = ⟨false, []⟩ ∧
    write_supply_temp_min_cool (fun _ _ => true) 50 = ⟨true, [(301, 50)]⟩ := by
  have h := C4_validation_amended (fun _ _ => true) 5 50 (by decide)
  refine ⟨h.1, ?_⟩
  rw [h.2]
  norm_num [pyInt, MaicoWSRegisters.SUPPLY_TEMP_MIN_COOL]

/-- C5, counterexample: decoding season code 9 (absent from the season
table) yields the string "unknown_9", not "unknown_season_9": the
fallback string does not contain the label. -/
theorem C5_enum_fallback_cex :
    decode season_map 9 = "unknown_9" ∧
    "unknown_9" ≠ "unknown_season_9" ∧
    Option.map Status.season
        (process_status_results none none none none (some [0, 0, 9, 0, 0])
          none none none none none)
      = some (some "unknown_9") := by
  exact ⟨rfl, by decide, rfl⟩

/-- C5, amended: for every raw word absent from an enum code table, the
decode returns the total (never-raising) fallback string
"unknown_" ++ word, without the label; in particular an aggregation pass
whose operation-mode block carries an unmapped season word puts exactly
that fallback string into the snapshot. -/
theorem C5_enum_fallback_amended :
    (∀ (table : Nat → Option String) (w : Nat), table w = none →
      decode table w = "unknown_" ++ toString w) ∧
    (∀ w : Nat, season_map w = none →
      Option.map Status.season
          (process_status_results none none none none (some [0, 0, w, 0, 0])
            none none none none none)
        = some (some ("unknown_" ++ toString w))) := by
  constructor
  · intro table w h
    simp [decode, h]
  · intro w h
    simp [process_status_results, procSettings, procVent, procTemp, procHum,
      procOp, procSwitch, procFault, procFilterFlow, procHours, procRoomSel,
      decode, h]

/-- C5, witness: the amended theorem at season code 9. -/
theorem C5_enum_fallback_witness :
    season_map 9 = none ∧
    decode season_map 9 = "unknown_" ++ toString 9 ∧
    Option.map Status.season
        (process_status_results none none none none (some [0, 0, 9, 0, 0])
          none none none none none)
      = some (some ("unknown_" ++ toString 9)) :=
  ⟨rfl, C5_enum_fallback_amended.1 season_map 9 rfl,
    C5_enum_fallback_amended.2 9 rfl⟩

/-- C6: if the ventilation block (650-657) read fails at the transport
level while every other block read succeeds, the aggregation call
completes without an exception and returns a snapshot containing
`room_temperature` and `operation_mode` but omitting
`current_ventilation_level` and `filter_status`. -/
theorem C6_block_independence
    (t0 t1 t2 t3 t4 t5 t6 t7 o0 o1 o2 o3 o4 : Nat) :
    ∃ st : Status,
      get_all_status true
        ⟨fun r c =>
          if r = 650 then .raised
          else if r = 700 then .ok [t0, t1, t2, t3, t4, t5, t6, t7]
          else if r = 550 then .ok [o0, o1, o2, o3, o4]
          else .ok (List.replicate c 0)⟩ = .ok (some st)
      ∧ st.room_temperature = some (to_temp t0)
      ∧ st.operation_mode = some (decode mode_map o0)
      ∧ st.current_ventilation_level = none
      ∧ st.filter_status = none :=
  ⟨_, rfl, rfl, rfl, rfl, rfl⟩

/-- C7: a transport returning all-zero registers for every block yields a
snapshot with `fault_status = "no_fault"`, `info_messages = "no_info"`,
`operation_mode = "off"` and `power_state = false`. -/
theorem C7_all_zero_snapshot :
    ∃ st : Status,
      get_all_status true ⟨fun _ c => .ok (List.replicate c 0)⟩
        = .ok (some st)
      ∧ st.fault_status = some "no_fault"
      ∧ st.info_messages = some "no_info"
      ∧ st.operation_mode = some "off"
      ∧ st.power_state = some false :=
  ⟨_, rfl, rfl, rfl, rfl, rfl⟩

/-- C8: in the humidity/CO2/VOC block, `extract_air_humidity` and the
four humidity sensors are kept as the raw register words (no division by
10), the CO2 and VOC sensors are the raw words divided by 10, and each
sub-group is populated only when the returned list is long enough: a
full 15-word list populates everything, while 1-word and 4-word lists
are processed without failure and populate only the leading fields. -/
theorem C8_hum_block_scaling
    (h0 h1 h2 h3 h4 h5 h6 h7 h8 h9 h10 h11 h12 h13 h14 : Nat) :
    (∃ st : Status,
      process_status_results none none none
          (some [h0, h1, h2, h3, h4, h5, h6, h7, h8, h9, h10, h11, h12, h13, h14])
          none none none none none none = some st
      ∧ st.extract_air_humidity = some h0
      ∧ st.humidity_sensor_1 = some h1
      ∧ st.humidity_sensor_2 = some h2
      ∧ st.humidity_sensor_3 = some h3
      ∧ st.humidity_sensor_4 = some h4
      ∧ st.co2_sensor_1 = some ((h5 : ℚ) / 10)
      ∧ st.co2_sensor_2 = some ((h6 : ℚ) / 10)
      ∧ st.co2_sensor_3 = some ((h7 : ℚ) / 10)
      ∧ st.co2_sensor_4 = some ((h8 : ℚ) / 10)
      ∧ st.voc_sensor_1 = some ((h9 : ℚ) / 10)
      ∧ st.voc_sensor_2 = some ((h10 : ℚ) / 10)
      ∧ st.voc_sensor_3 = some ((h11 : ℚ) / 10)
      ∧ st.voc_sensor_4 = some ((h12 : ℚ) / 10)
      ∧ st.humidity_bus = some h13
      ∧ st.air_quality_bus = some h14) ∧
    (∃ st : Status,
      process_status_results none none none (some [h0])
          none none none none none none = some st
      ∧ st.extract_air_humidity = some h0
      ∧ st.humidity_sensor_1 = none
      ∧ st.co2_sensor_1 = none
      ∧ st.voc_sensor_1 = none
      ∧ st.humidity_bus = none) ∧
    (∃ st : Status,
      process_status_results none none none (some [h0, h1, h2, h3])
          none none none none none none = some st
      ∧ st.extract_air_humidity = some h0
      ∧ st.humidity_sensor_1 = none
      ∧ st.co2_sensor_1 = none) := by
  refine ⟨⟨_, rfl, ?_, ?_, ?_, ?_, ?_, ?_, ?_, ?_, ?_, ?_, ?_, ?_, ?_, ?_, ?_⟩,
    ⟨_, rfl, ?_, ?_, ?_, ?_, ?_⟩, ⟨_, rfl, ?_, ?_, ?_⟩⟩ <;> rfl

/-- C9: `write_supply_temp_min_cool(15)` issues exactly one write of raw
value 15 to register 301 (identity scaling), while `write_room_temp_max(15)`
issues exactly one write of raw value 150 to register 302 (times-10
scaling): the vendor asymmetry is preserved. -/
theorem C9_asymmetric_scaling (wt : WriteFn) :
    write_supply_temp_min_cool wt 15 = ⟨wt 301 15, [(301, 15)]⟩ ∧
    write_room_temp_max wt 15 = ⟨wt 302 150, [(302, 150)]⟩ := by
  constructor
  · unfold write_supply_temp_min_cool
    norm_num [pyInt, MaicoWSRegisters.SUPPLY_TEMP_MIN_COOL]
  · unfold write_room_temp_max
    norm_num [pyInt, MaicoWSRegisters.ROOM_TEMP_MAX]

/-- C10: every snapshot produced by an aggregation pass, for any
combination of per-block read results, carries the `power_state` key,
set to true exactly when `operation_mode` is absent or not "off"; in
particular, when the operation-mode block read fails and another block
succeeds, the snapshot reports `power_state = true` with the mode
unknown. -/
theorem C10_power_state :
    (∀ (s v t h o sw f ff hrs : Option (List Nat)) (rs : Option Nat)
        (stf : Status),
      process_status_results s v t h o sw f ff hrs rs = some stf →
      stf.power_state = some (power_from_opt stf.operation_mode)) ∧
    (∃ st : Status,
      get_all_status true
          ⟨fun r c => if r = 550 then .raised else .ok (List.replicate c 0)⟩
        = .ok (some st)
      ∧ st.operation_mode = none
      ∧ st.power_state = some true
      ∧ st.room_temperature = some (to_temp 0)) := by
  constructor
  · intro s v t h o sw f ff hrs rs stf hp
    unfold process_status_results at hp
    simp only [Option.bind_eq_some] at hp
    obtain ⟨s1, _, s2, _, s3, _, s4, _, s5, _, s6, _, s7, _, s8, _, s9, _,
      s10, _, hfin⟩ := hp
    injection hfin with hfin
    subst hfin
    rfl
  · exact ⟨_, rfl, rfl, rfl, rfl⟩

/-- C10, witness: the universal part applied to the all-blocks-failed
aggregation pass, whose snapshot is the record with only `power_state`
populated. -/
theorem C10_power_state_witness :
    ({ power_state := some true } : Status).power_state
      = some (power_from_opt
          ({ power_state := some true } : Status).operation_mode) :=
  C10_power_state.1 none none none none none none none none none none _ rfl

end MaicoWS
